import Mathlib

/-!
Shallow embedding of the `flow_bot` options-flow signal pipeline
(`src/flow_bot/`): the FlowEvent data model (`models.py`), the scoring
rubric (`scoring.py`), universe resolution (`universe.py`), the live
option-chain polling / dedup loop (`flow_client.py`) and two strategy
evaluators (`strategies/day_trend.py`, `strategies/swing_accumulation.py`).

Modelling conventions:
- Python `float`/`int` money-like quantities are embedded as `ℚ`; counts
  (contracts, volume, open interest, days-to-expiry) as `Int`.
- Python `dict.get` of an absent key is `Option.none`; Python truthiness
  (`x or y` picks `y` when `x` is falsy: `None`, `0`, `""`, `[]`, `False`)
  is embedded by the explicit `pyOr*` helpers below.
- Dates are embedded as their epoch-day ordinal (`Int`); datetimes as the
  epoch-second value (`ℚ`), with `.date()` given by flooring.
- Fallible constructions (Python dataclass `__init__` raising `TypeError`
  on a missing required keyword argument) return `Except String _`.
-/

namespace FlowBot

/-- Python `a or b` where `a` is an optional string and `""` is falsy. -/
def pyOrStr (a : Option String) (b : String) : String :=
  match a with
  | none => b
  | some s => if s = "" then b else s

/-- Python `a or b` where `a` is an optional number and `0` is falsy. -/
def pyOrQ (a : Option ℚ) (b : ℚ) : ℚ :=
  match a with
  | none => b
  | some x => if x = 0 then b else x

/-- Python `a or b` for optional integers, `0` falsy. -/
def pyOrI (a : Option Int) (b : Int) : Int :=
  match a with
  | none => b
  | some x => if x = 0 then b else x

/-- Python `a or b` for two optional integers, keeping the option
(`last_trade.get("sip_timestamp") or last_trade.get("t")`). -/
def pyOrOptI (a b : Option Int) : Option Int :=
  match a with
  | none => b
  | some x => if x = 0 then b else some x

/-- Truthiness of a value pulled from a context dict that holds a boolean
or is absent (`bool(context.get(key))` / `if context.get(key):`). -/
def truthy (a : Option Bool) : Bool :=
  match a with
  | none => false
  | some b => b

/-- Truthiness of an optional string (absent or `""` is falsy). -/
def strTruthy (a : Option String) : Bool :=
  match a with
  | none => false
  | some s => decide (s ≠ "")

/-- Python `str.upper()`: a per-character map. (`String.toUpper` from
core has the same value but is defined by well-founded recursion, which
blocks kernel evaluation, so the map is written out structurally.) -/
def pyUpper (s : String) : String := ⟨s.data.map Char.toUpper⟩

/-- Python `s.startswith(p)`, structurally. -/
def pyStartsWith (s p : String) : Bool := p.data.isPrefixOf s.data

/-- Python `c in s` for a single-character `c`, structurally. -/
def pyContainsChar (s : String) (c : Char) : Bool := s.data.contains c

/-- Python `datetime`: embedded by its epoch-second value. -/
structure DateTime where
  epochSec : ℚ
deriving DecidableEq

/-- `datetime.date()` as an epoch-day ordinal: the floor of
`epochSec / 86400`, written as integer floor-division
(`num.fdiv (den * 86400)` equals `⌊(num / den) / 86400⌋` since the
denominator is positive) so that it evaluates in the kernel. -/
def DateTime.dateOf (t : DateTime) : Int :=
  t.epochSec.num.fdiv ((t.epochSec.den : Int) * 86400)

/-- `datetime.fromtimestamp(ts_sec, tz=timezone.utc)`. -/
def DateTime.fromTimestamp (s : ℚ) : DateTime := ⟨s⟩

/-- The raw provider payload kept on a `FlowEvent` (`raw=` argument).
The core only ever reads `raw.get("call_put")`
(strategies, e.g. `swing_accumulation.py` line 32), so only that key is
modelled; a Massive snapshot contract dict has no such key (`none`). -/
structure RawPayload where
  call_put : Option String := none
deriving DecidableEq

/-- `models.FlowEvent` dataclass. Fields in source order; fields with a
Python default carry the same default here. `call_put` and `trade_time`
are required (no default), exactly as in `models.py` lines 46-69. -/
structure FlowEvent where
  ticker : String
  call_put : String
  side : String
  action : String
  strike : ℚ
  expiry : Int
  option_price : ℚ
  contracts : Int
  notional : ℚ
  volume : Int
  open_interest : Int
  underlying_price : ℚ
  trade_time : DateTime
  event_time : DateTime
  exchange : String := ""
  is_sweep : Bool := false
  is_block : Bool := false
  is_aggressive : Bool := false
  is_multi_leg : Bool := false
  iv : Option ℚ := none
  delta : Option ℚ := none
  bid : Option ℚ := none
  ask : Option ℚ := none
  raw : RawPayload := {}
deriving DecidableEq

/-- Keyword arguments of a Python call `FlowEvent(...)`: `none` means the
keyword was not passed at the call site. -/
structure FlowEventKwargs where
  ticker : Option String := none
  call_put : Option String := none
  side : Option String := none
  action : Option String := none
  strike : Option ℚ := none
  expiry : Option Int := none
  option_price : Option ℚ := none
  contracts : Option Int := none
  notional : Option ℚ := none
  volume : Option Int := none
  open_interest : Option Int := none
  underlying_price : Option ℚ := none
  trade_time : Option DateTime := none
  event_time : Option DateTime := none
  exchange : Option String := none
  is_sweep : Option Bool := none
  is_block : Option Bool := none
  is_aggressive : Option Bool := none
  is_multi_leg : Option Bool := none
  iv : Option (Option ℚ) := none
  delta : Option (Option ℚ) := none
  bid : Option (Option ℚ) := none
  ask : Option (Option ℚ) := none
  raw : Option RawPayload := none
deriving DecidableEq

/-- Python dataclass construction semantics for `FlowEvent(...)`: every
field of `models.FlowEvent` without a default must be passed, otherwise
`__init__` raises `TypeError` (embedded as `.error`); defaulted fields
fall back to their dataclass defaults. -/
def flowEventInit (k : FlowEventKwargs) : Except String FlowEvent :=
  match k.ticker, k.call_put, k.side, k.action, k.strike, k.expiry,
      k.option_price, k.contracts, k.notional, k.volume, k.open_interest,
      k.underlying_price, k.trade_time, k.event_time with
  | some ticker, some call_put, some side, some action, some strike,
      some expiry, some option_price, some contracts, some notional,
      some volume, some open_interest, some underlying_price,
      some trade_time, some event_time =>
    .ok { ticker := ticker, call_put := call_put, side := side,
          action := action, strike := strike, expiry := expiry,
          option_price := option_price, contracts := contracts,
          notional := notional, volume := volume,
          open_interest := open_interest,
          underlying_price := underlying_price,
          trade_time := trade_time, event_time := event_time,
          exchange := k.exchange.getD "",
          is_sweep := k.is_sweep.getD false,
          is_block := k.is_block.getD false,
          is_aggressive := k.is_aggressive.getD false,
          is_multi_leg := k.is_multi_leg.getD false,
          iv := k.iv.getD none, delta := k.delta.getD none,
          bid := k.bid.getD none, ask := k.ask.getD none,
          raw := k.raw.getD {} }
  | _, _, _, _, _, _, _, _, _, _, _, _, _, _ =>
    .error "TypeError: missing required dataclass argument"

/-- Market-context dict passed to scoring/strategies (`context`).
Keys absent from the dict are `none`. -/
structure Ctx where
  trend_aligned : Option Bool := none
  breaking_level : Option Bool := none
  trend_15m_up : Option Bool := none
  trend_daily_up : Option Bool := none
  rvol : Option ℚ := none
deriving DecidableEq

/-- Per-mode configuration dict (`mode_cfg`): keys read by the core, each
optional since `mode_cfg.get(...)` is used with explicit defaults. -/
structure ModeCfg where
  min_notional : Option ℚ := none
  min_premium : Option ℚ := none
  max_dte : Option Int := none
  min_dte : Option Int := none
  max_otm_pct : Option ℚ := none
  min_rvol : Option ℚ := none
  min_strength : Option ℚ := none
  tp_pct : Option ℚ := none
  sl_pct : Option ℚ := none
  time_horizon_min : Option Int := none
  time_horizon_max : Option Int := none
  time_horizon_days_min : Option Int := none
  time_horizon_days_max : Option Int := none
deriving DecidableEq

/-- `scoring.score_signal` lines 19-21: `mode_cfg.get("min_notional")`,
falling back to `mode_cfg.get("min_premium", 0)` when `None`. -/
def minNotionalOf (m : ModeCfg) : ℚ :=
  match m.min_notional with
  | none => m.min_premium.getD 0
  | some x => x

/-- `scoring.score_signal` lines 15-56: the running
`(score, tags, rules)` accumulator just before the final clamp.
The source mutates `score`/`tags`/`rules` through seven sequential `if`
blocks; that imperative accumulation is flattened here into the sum of
the per-predicate score increments and the concatenation of the
per-predicate tag/rule appends, in source order (one `if` per source
`if`, same condition, same weight, same strings). -/
def scoreAccum (e : FlowEvent) (c : Ctx) (m : ModeCfg) :
    ℚ × List String × List String :=
  let min_notional := minNotionalOf m
  ((if e.notional ≥ min_notional then 2 else 0) +
     (if e.notional ≥ min_notional then 2 else 0) +
     (if e.is_sweep then 2 else 0) +
     (if e.is_aggressive then 2 else 0) +
     (if e.volume ≥ 2 * max e.open_interest 1 then 2 else 0) +
     (if truthy c.trend_aligned then 2 else 0) +
     (if truthy c.breaking_level then 1 else 0),
   (if e.notional ≥ min_notional then ["SIZE"] else []) ++
     (if e.notional ≥ min_notional then ["SIZE_OK"] else []) ++
     (if e.is_sweep then ["SWEEP"] else []) ++
     (if e.is_aggressive then ["AGGRESSIVE"] else []) ++
     (if e.volume ≥ 2 * max e.open_interest 1 then ["VOL>OI"] else []) ++
     (if truthy c.trend_aligned then ["TREND_CONFIRMED"] else []) ++
     (if truthy c.breaking_level then ["LEVEL_BREAK"] else []),
   (if e.notional ≥ min_notional then ["notional>=min_notional"] else []) ++
     (if e.notional ≥ min_notional then ["size_ok"] else []) ++
     (if e.is_sweep then ["is_sweep"] else []) ++
     (if e.is_aggressive then ["is_aggressive"] else []) ++
     (if e.volume ≥ 2 * max e.open_interest 1 then ["volume>=2x_oi"] else []) ++
     (if truthy c.trend_aligned then ["trend_aligned"] else []) ++
     (if truthy c.breaking_level then ["breaking_level"] else []))

/-- `scoring.score_signal`: returns `(strength, tags, rules)` with
`strength = min(score, 10.0)` (line 58). -/
def score_signal (e : FlowEvent) (c : Ctx) (m : ModeCfg) :
    ℚ × List String × List String :=
  let acc := scoreAccum e c m
  (min acc.1 10, acc.2.1, acc.2.2)

/-- The raw additive sum of `score_signal` before clamping. -/
def rawScore (e : FlowEvent) (c : Ctx) (m : ModeCfg) : ℚ :=
  (scoreAccum e c m).1

/-! ## Universe resolution (`universe.py`) -/

/-- `universe.DEFAULT_FALLBACK` (lines 19-35). -/
def DEFAULT_FALLBACK : List String :=
  ["SPY", "QQQ", "IWM", "DIA", "AAPL", "MSFT", "NVDA", "META", "GOOGL",
   "AMZN", "AMD", "TSLA", "AVGO", "NFLX", "SMH"]

/-- Helper for `universe._unique`: ordered de-duplication with a seen set. -/
def uniqueAux : List String → List String → List String
  | [], _ => []
  | x :: xs, seen =>
    if x ∈ seen then uniqueAux xs seen else x :: uniqueAux xs (x :: seen)

/-- `universe._unique` (lines 38-46): keep first occurrence, preserve
order. -/
def uniqueList (l : List String) : List String := uniqueAux l []

/-- Python list slicing `l[:n]` with an `int` bound: a negative bound
drops that many elements from the end. -/
def pyTake (l : List String) (n : Int) : List String :=
  if 0 ≤ n then l.take n.toNat else l.take (l.length - n.natAbs)

/-- The configuration fields `universe.resolve_universe` (and the
surrounding pipeline) reads, plus the `tickers.overrides` keys that the
spec's tier 1 refers to. `api_key` is `cfg["api_keys"]["polygon_massive"]`
(with `load_api_keys()` already folded in). -/
structure UniCfg where
  overrides : List String := []
  universe_fallback : List String := []
  tickers_fallback_universe : List String := []
  universe_max_tickers : Option Int := none
  api_key : Option String := none
deriving DecidableEq

/-- `universe.resolve_universe` (lines 102-167). The outcome of the
provider call `_try_fetch_top_volume` is passed in as `fetchTop`
(`some l` = the ranked ticker list it returned, `none` = it raised; any
exception is caught and treated as an empty dynamic universe). Returns
the resolved list together with a flag recording whether the dynamic
top-volume fetch was invoked (the `if api_key:` branch, lines 133-138). -/
def resolve_universe (cfg : UniCfg) (fetchTop : Option (List String))
    (max_tickers : Int := 500) : List String × Bool :=
  let fallback_from_cfg :=
    if cfg.universe_fallback ≠ [] then cfg.universe_fallback
    else cfg.tickers_fallback_universe
  let max_tickers_cfg :=
    match cfg.universe_max_tickers with
    | none => max_tickers
    | some n => if n = 0 then max_tickers else n
  let dynamicCalled := strTruthy cfg.api_key
  let dynamic : List String :=
    if dynamicCalled then
      match fetchTop with
      | some l => uniqueList (l.map pyUpper)
      | none => []
    else []
  if dynamic ≠ [] then (pyTake dynamic max_tickers_cfg, dynamicCalled)
  else if fallback_from_cfg ≠ [] then
    (pyTake (uniqueList (fallback_from_cfg.map pyUpper))
      max_tickers_cfg, dynamicCalled)
  else (pyTake DEFAULT_FALLBACK max_tickers_cfg, dynamicCalled)

/-! ## Live option-chain polling (`flow_client.py`) -/

/-- `last_trade` sub-record of a Massive snapshot contract. -/
structure LastTrade where
  sip_timestamp : Option Int := none
  t : Option Int := none
  price : Option ℚ := none
  size : Option Int := none
deriving DecidableEq

/-- `details` sub-record. `expiration_date` is the parsed
`"%Y-%m-%d"` date as an epoch-day ordinal; an absent or empty string is
`none` (both are falsy at the `if expiry_raw` check). -/
structure ContractDetails where
  ticker : Option String := none
  contract_type : Option String := none
  strike_price : Option ℚ := none
  expiration_date : Option Int := none
deriving DecidableEq

/-- `day` sub-record. -/
structure DayData where
  volume : Option Int := none
deriving DecidableEq

/-- `underlying_asset` sub-record. -/
structure UnderlyingAsset where
  price : Option ℚ := none
  last_price : Option ℚ := none
deriving DecidableEq

/-- One contract record from the snapshot `results` array. An absent or
empty (falsy) sub-dict is `none`. -/
structure Contract where
  details : Option ContractDetails := none
  last_trade : Option LastTrade := none
  day : Option DayData := none
  open_interest : Option Int := none
  implied_volatility : Option ℚ := none
  underlying_asset : Option UnderlyingAsset := none
deriving DecidableEq

/-- The dedup identity key `f"{underlying}:{option_ticker}:{ts_ns}"`
(`flow_client.py` line 235). -/
def uniqueId (underlying option_ticker : String) (ts_ns : Int) : String :=
  underlying ++ ":" ++ option_ticker ++ ":" ++ toString ts_ns

/-- The identity key `_poll_massive_option_chain` computes for a contract
record, `none` when the record is skipped before the key is formed
(no `last_trade`, blank option ticker, or falsy timestamp — lines
225-233). -/
def recordKey (underlying : String) (c : Contract) : Option String :=
  match c.last_trade with
  | none => none
  | some last_trade =>
    let details := c.details.getD {}
    let option_ticker := pyOrStr details.ticker ""
    match pyOrOptI last_trade.sip_timestamp last_trade.t with
    | none => none
    | some ts_ns =>
      if option_ticker = "" ∨ ts_ns = 0 then none
      else some (uniqueId underlying option_ticker ts_ns)

/-- The per-contract body of `FlowClient._poll_massive_option_chain`
(lines 223-307), for one record: returns the event yielded for the
record (if any) and the updated seen-set. The seen-set is a list used as
a set (`unique_id in seen_ids` / `seen_ids.add`). The only failure the
`try`/`except` at lines 224/303 can see in this typed embedding is the
`FlowEvent(...)` dataclass construction; on `.error` the record is
skipped (`continue`), with the key already in the seen-set. -/
def processContract (underlying : String) (today : Int) (c : Contract)
    (seen_ids : List String) : Option FlowEvent × List String :=
  let details := c.details.getD {}
  match c.last_trade with
  | none => (none, seen_ids)
  | some last_trade =>
    let option_ticker := pyOrStr details.ticker ""
    match pyOrOptI last_trade.sip_timestamp last_trade.t with
    | none => (none, seen_ids)
    | some ts_ns =>
      if option_ticker = "" ∨ ts_ns = 0 then (none, seen_ids)
      else
        let unique_id := uniqueId underlying option_ticker ts_ns
        if unique_id ∈ seen_ids then (none, seen_ids)
        else
          let seen_ids := unique_id :: seen_ids
          let ts_sec : ℚ := (ts_ns : ℚ) / 1000000000
          let event_time := DateTime.fromTimestamp ts_sec
          let side := pyUpper (pyOrStr details.contract_type "")
          let strike := pyOrQ details.strike_price 0
          let expiry := details.expiration_date.getD today
          let option_price := pyOrQ last_trade.price 0
          let contracts := pyOrI last_trade.size 0
          let notional := option_price * contracts * 100
          let day := c.day.getD {}
          let volume := pyOrI day.volume 0
          let open_interest := pyOrI c.open_interest 0
          let iv := c.implied_volatility
          let underlying_asset := c.underlying_asset.getD {}
          let underlying_price :=
            pyOrQ underlying_asset.price (pyOrQ underlying_asset.last_price 0)
          let kwargs : FlowEventKwargs :=
            { ticker := some underlying, side := some side,
              action := some "BUY", strike := some strike,
              expiry := some expiry, option_price := some option_price,
              contracts := some contracts, notional := some notional,
              is_sweep := some false, is_aggressive := some false,
              volume := some volume, open_interest := some open_interest,
              iv := some iv, underlying_price := some underlying_price,
              event_time := some event_time, raw := some {} }
          match flowEventInit kwargs with
          | .ok event => (some event, seen_ids)
          | .error _ => (none, seen_ids)

/-- The per-record loop of `_poll_massive_option_chain` over one
snapshot's `results` array: collects yielded events in order and threads
the seen-set. -/
def processResults (underlying : String) (today : Int) :
    List Contract → List String → List FlowEvent × List String
  | [], seen_ids => ([], seen_ids)
  | c :: cs, seen_ids =>
    let r := processContract underlying today c seen_ids
    let rest := processResults underlying today cs r.2
    (match r.1 with | some e => e :: rest.1 | none => rest.1, rest.2)

/-- The identity keys a `results` array contributes, in order
(`recordKey` per record, skipped records omitted). -/
def keysOf (underlying : String) (cs : List Contract) : List String :=
  cs.filterMap (recordKey underlying)

/-! ## Strategies (`strategies/day_trend.py`, `strategies/swing_accumulation.py`) -/

/-- Python `a or b` on two plain strings (`""` falsy). -/
def strOr (a b : String) : String := if a = "" then b else a

/-- `get_market_regime` result dict (passed through opaquely). -/
structure Regime where
  trend : Option String := none
  volatility : Option String := none
deriving DecidableEq

/-- The `price_info` diagnostics dict stashed into a Signal's context. -/
structure PriceInfo where
  persistent_notional : Option ℚ := none
  dte : Option Int := none
  otm_pct : Option ℚ := none
  rvol : Option ℚ := none
  underlying_price : Option ℚ := none
deriving DecidableEq

/-- A Signal's free-form `context` map: the enriched event context plus
the well-known keys the strategies add. -/
structure SigContext where
  base : Ctx
  rules_triggered : List String
  market_regime : Regime
  price_info : PriceInfo
  mode : String
deriving DecidableEq

/-- `models.Signal` dataclass (fields in source order). -/
structure Signal where
  id : String
  ticker : String
  kind : String
  direction : String
  style : String
  strength : ℚ
  tags : List String
  flow_events : List FlowEvent
  context : SigContext
  created_at : DateTime
  experiment_id : String
  time_horizon_min : Option Int := none
  time_horizon_max : Option Int := none
  time_horizon_days_min : Option Int := none
  time_horizon_days_max : Option Int := none
  tp_pct : Option ℚ := none
  sl_pct : Option ℚ := none
  notes : Option String := none
deriving DecidableEq

/-- Global configuration as the strategies see it. The dict merge of
`config.get_ticker_config` (mode defaults ← `tickers.default` ←
`tickers.overrides[ticker]` ← mode-within-ticker overrides) is
represented abstractly by its resolved outcome `ticker_mode_cfg`, since
every claim below quantifies over arbitrary merged mode
configurations. -/
structure GlobalCfg where
  ticker_mode_cfg : String → String → ModeCfg
  experiment_id : Option String := none

/-- `config.get_ticker_config(global_cfg, ticker, mode)`. -/
def get_ticker_config (g : GlobalCfg) (ticker mode : String) : ModeCfg :=
  g.ticker_mode_cfg ticker mode

/-- `DayTrendStrategy.evaluate` (`strategies/day_trend.py` lines 17-103).
`uuid4()` is an opaque fresh identifier, represented by a fixed
placeholder string (no claim concerns signal ids). -/
def DayTrendStrategy.evaluate (e : FlowEvent) (c : Ctx) (regime : Regime)
    (g : GlobalCfg) : Option Signal :=
  let mode_cfg := get_ticker_config g e.ticker "day_trade"
  let dte := e.expiry - e.event_time.dateOf
  if dte > mode_cfg.max_dte.getD 10 then none
  else if e.notional < mode_cfg.min_notional.getD 0 then none
  else
    let otm_pct := |e.strike - e.underlying_price| /
      max e.underlying_price 1 * 100
    if otm_pct > mode_cfg.max_otm_pct.getD 100 then none
    else
      let call_put := pyUpper (strOr e.call_put (pyOrStr e.raw.call_put "CALL"))
      let order_side := pyUpper (strOr e.side (strOr e.action "BUY"))
      let trend_15m_up := truthy c.trend_15m_up
      let trend_aligned :=
        if call_put = "CALL" then trend_15m_up else !trend_15m_up
      let direction :=
        if call_put = "CALL" then
          (if order_side ≠ "SELL" then "BULLISH" else "BEARISH")
        else (if order_side ≠ "SELL" then "BEARISH" else "BULLISH")
      let breaking_level :=
        match c.breaking_level with
        | none => e.is_aggressive || e.is_sweep
        | some b => b
      let afterRvolGuard : Option Signal :=
        if !breaking_level then none
        else
          let enriched :=
            { c with trend_aligned := some (trend_aligned && breaking_level) }
          let scored := score_signal e enriched mode_cfg
          let strength := scored.1
          if strength < mode_cfg.min_strength.getD 0 then none
          else
            let tags := scored.2.1 ++ ["BREAKOUT"]
            let tags := if e.is_sweep then tags ++ ["SWEEP"] else tags
            let tags := if e.is_aggressive then tags ++ ["AGGRESSIVE"] else tags
            let rules := if breaking_level then
              scored.2.2 ++ ["breaking_level"] else scored.2.2
            let rules := rules ++ ["day_trade_filters_passed"]
            let price_info : PriceInfo :=
              { otm_pct := some otm_pct, dte := some dte, rvol := c.rvol,
                underlying_price := some e.underlying_price }
            let time_min := mode_cfg.time_horizon_min.getD 30
            let time_max := mode_cfg.time_horizon_max.getD 180
            some { id := "uuid4", ticker := e.ticker, kind := "DAY_TRADE",
                   direction := direction, style := "day",
                   strength := strength, tags := tags, flow_events := [e],
                   context := { base := enriched, rules_triggered := rules,
                                market_regime := regime,
                                price_info := price_info, mode := "day" },
                   created_at := e.event_time,
                   experiment_id := g.experiment_id.getD "unknown",
                   time_horizon_min := some time_min,
                   time_horizon_max := some time_max,
                   tp_pct := mode_cfg.tp_pct, sl_pct := mode_cfg.sl_pct }
      match c.rvol with
      | some rvol =>
        if rvol < mode_cfg.min_rvol.getD 0 then none else afterRvolGuard
      | none => afterRvolGuard

/-- The hard breaking-level gate of `DayTrendStrategy.evaluate`
(lines 43-45, 52-53): the context's `breaking_level` when supplied,
otherwise inferred from the aggressive/sweep flags. -/
def dayTrendBreakingLevel (e : FlowEvent) (c : Ctx) : Bool :=
  match c.breaking_level with
  | none => e.is_aggressive || e.is_sweep
  | some b => b

/-- The swing strategy's per-chain accumulator key
(`swing_accumulation.py` line 32). -/
def swingChainKey (e : FlowEvent) : String × ℚ × Int × String :=
  (e.ticker, e.strike, e.expiry, strOr e.call_put (pyOrStr e.raw.call_put "CALL"))

/-- `SwingAccumulationStrategy.chain_totals`: a dict read through
`.get(key, 0.0)`, embedded as a total map defaulting to `0`. -/
def ChainTotals : Type := String × ℚ × Int × String → ℚ

/-- `SwingAccumulationStrategy.evaluate`
(`strategies/swing_accumulation.py` lines 21-99); the mutation of
`self.chain_totals` is made explicit: the updated accumulator is
returned alongside the optional signal. -/
def SwingAccumulationStrategy.evaluate (st : ChainTotals) (e : FlowEvent)
    (c : Ctx) (regime : Regime) (g : GlobalCfg) :
    Option Signal × ChainTotals :=
  let mode_cfg := get_ticker_config g e.ticker "swing"
  let dte := e.expiry - e.event_time.dateOf
  if dte < mode_cfg.min_dte.getD 0 ∨ dte > mode_cfg.max_dte.getD 1000000 then
    (none, st)
  else if e.notional < mode_cfg.min_premium.getD 0 then (none, st)
  else
    let key := swingChainKey e
    let st' : ChainTotals :=
      fun k => if k = key then st key + e.notional else st k
    let persistent_buyer : Bool :=
      decide (st' key ≥ mode_cfg.min_premium.getD 0 * 3)
    let call_put := pyUpper (strOr e.call_put (pyOrStr e.raw.call_put "CALL"))
    let order_side := pyUpper (strOr e.side (strOr e.action "BUY"))
    let trend_daily_up := truthy c.trend_daily_up
    let trend_aligned :=
      if call_put = "CALL" then trend_daily_up else !trend_daily_up
    let direction :=
      if call_put = "CALL" then
        (if order_side ≠ "SELL" then "BULLISH" else "BEARISH")
      else (if order_side ≠ "SELL" then "BEARISH" else "BULLISH")
    let enriched := { c with trend_aligned := some trend_aligned }
    let scored := score_signal e enriched mode_cfg
    let strength := scored.1
    if strength < mode_cfg.min_strength.getD 0 then (none, st')
    else
      let tags := if persistent_buyer then
        scored.2.1 ++ ["PERSISTENT_BUYER"] else scored.2.1
      let rules := if persistent_buyer then
        scored.2.2 ++ ["persistent_buyer"] else scored.2.2
      let tags := if e.is_sweep then tags ++ ["SWEEP"] else tags
      let tags := if e.is_aggressive then tags ++ ["AGGRESSIVE"] else tags
      let rules := rules ++ ["swing_filters_passed"]
      let otm_pct := |e.strike - e.underlying_price| /
        max e.underlying_price 1 * 100
      let price_info : PriceInfo :=
        { persistent_notional := some (st' key), dte := some dte,
          otm_pct := some otm_pct, rvol := c.rvol,
          underlying_price := some e.underlying_price }
      let days_min := mode_cfg.time_horizon_days_min.getD
        (mode_cfg.min_dte.getD 2)
      let days_max := mode_cfg.time_horizon_days_max.getD
        (mode_cfg.max_dte.getD dte)
      (some { id := "uuid4", ticker := e.ticker, kind := "SWING",
              direction := direction, style := "swing",
              strength := strength, tags := tags, flow_events := [e],
              context := { base := enriched, rules_triggered := rules,
                           market_regime := regime,
                           price_info := price_info, mode := "swing" },
              created_at := e.event_time,
              experiment_id := g.experiment_id.getD "unknown",
              time_horizon_days_min := some days_min,
              time_horizon_days_max := some days_max,
              tp_pct := mode_cfg.tp_pct, sl_pct := mode_cfg.sl_pct }, st')

/-! ## Legacy provider-event normalization (`FlowClient._map_provider_event`) -/

/-- Python `a or b` on two optional numbers, keeping the option
(`0` falsy, final operand returned as-is). -/
def pyOrOptQ (a b : Option ℚ) : Option ℚ :=
  match a with
  | none => b
  | some x => if x = 0 then b else some x

/-- A raw provider flow record as read by `_map_provider_event`
(`flow_client.py` lines 316-396): one optional field per dict key the
normalizer reads, at the type the normalizer reads it. The `"type"` key
is `type_key` here (reserved-ish name); the `"underlying"` key is read
twice in the source — as a ticker string (line 320) and as a price
number (line 361) — so both typed readings appear (`underlying`,
`underlying_num`). Date-valued keys are pre-parsed epoch-day ordinals;
numeric timestamps are epoch seconds (the ISO-string timestamp branch of
lines 368-372 is outside this typed model and not claimed). -/
structure RawProviderEvent where
  ticker : Option String := none
  underlying : Option String := none
  symbol : Option String := none
  side : Option String := none
  option_type : Option String := none
  type_key : Option String := none
  action : Option String := none
  direction : Option String := none
  trade_action : Option String := none
  strike : Option ℚ := none
  strike_price : Option ℚ := none
  strikePrice : Option ℚ := none
  expiry : Option Int := none
  expiration : Option Int := none
  expirationDate : Option Int := none
  price : Option ℚ := none
  option_price : Option ℚ := none
  premium : Option ℚ := none
  contracts : Option Int := none
  size : Option Int := none
  qty : Option Int := none
  quantity : Option Int := none
  notional : Option ℚ := none
  is_sweep : Option Bool := none
  sweep : Option Bool := none
  isSweep : Option Bool := none
  is_aggressive : Option Bool := none
  aggressive : Option Bool := none
  isAggressive : Option Bool := none
  at_ask : Option Bool := none
  atAsk : Option Bool := none
  volume : Option Int := none
  trade_volume : Option Int := none
  tradeVolume : Option Int := none
  open_interest : Option Int := none
  openInterest : Option Int := none
  oi : Option Int := none
  iv : Option ℚ := none
  implied_volatility : Option ℚ := none
  impliedVolatility : Option ℚ := none
  underlying_price : Option ℚ := none
  underlyingPrice : Option ℚ := none
  underlyingPriceLast : Option ℚ := none
  underlying_num : Option ℚ := none
  timestamp : Option ℚ := none
  ts : Option ℚ := none
  event_time : Option ℚ := none
  time : Option ℚ := none
  call_put : Option String := none
deriving DecidableEq

/-- The normalization body of `_map_provider_event` up to (and
including) assembling the keyword arguments of the `FlowEvent(...)` call
at lines 376-393; `none` is the early `return None` for a blank ticker
(lines 321-322). `now` stands for `datetime.utcnow()`. -/
def mapProviderEventKwargs (now : DateTime) (raw : RawProviderEvent) :
    Option FlowEventKwargs :=
  let ticker :=
    pyUpper (pyOrStr raw.ticker (pyOrStr raw.underlying (pyOrStr raw.symbol "")))
  if ticker = "" then none
  else
    let side_raw :=
      pyUpper (pyOrStr raw.side (pyOrStr raw.option_type
        (pyOrStr raw.type_key "CALL")))
    let side := if pyStartsWith side_raw "C" then "CALL" else "PUT"
    let action_raw :=
      pyUpper (pyOrStr raw.action (pyOrStr raw.direction
        (pyOrStr raw.trade_action "BUY")))
    let action := if !(pyContainsChar action_raw 'S') then "BUY" else "SELL"
    let strike := pyOrQ raw.strike (pyOrQ raw.strike_price
      (pyOrQ raw.strikePrice 0))
    let expiry_raw := (raw.expiry.orElse fun _ =>
      (raw.expiration.orElse fun _ => raw.expirationDate))
    let expiry :=
      match expiry_raw with
      | some d => d
      | none => (DateTime.fromTimestamp (now.epochSec + 7 * 86400)).dateOf
    let option_price := pyOrQ raw.price (pyOrQ raw.option_price
      (pyOrQ raw.premium 0))
    let contracts := pyOrI raw.contracts (pyOrI raw.size
      (pyOrI raw.qty (pyOrI raw.quantity 0)))
    let notional := pyOrQ raw.notional ((contracts : ℚ) * option_price * 100)
    let is_sweep := truthy raw.is_sweep || truthy raw.sweep ||
      truthy raw.isSweep
    let is_aggressive := truthy raw.is_aggressive || truthy raw.aggressive ||
      truthy raw.isAggressive || truthy raw.at_ask || truthy raw.atAsk
    let volume := pyOrI raw.volume (pyOrI raw.trade_volume
      (pyOrI raw.tradeVolume contracts))
    let open_interest := pyOrI raw.open_interest (pyOrI raw.openInterest
      (pyOrI raw.oi 0))
    let iv := pyOrOptQ raw.iv (pyOrOptQ raw.implied_volatility
      raw.impliedVolatility)
    let underlying_price := pyOrQ raw.underlying_price
      (pyOrQ raw.underlyingPrice (pyOrQ raw.underlyingPriceLast
        (pyOrQ raw.underlying_num strike)))
    let ts_raw := pyOrOptQ raw.timestamp (pyOrOptQ raw.ts
      (pyOrOptQ raw.event_time raw.time))
    let event_time :=
      match ts_raw with
      | some t => DateTime.fromTimestamp t
      | none => now
    some { ticker := some ticker, side := some side, action := some action,
           strike := some strike, expiry := some expiry,
           option_price := some option_price, contracts := some contracts,
           notional := some notional, is_sweep := some is_sweep,
           is_aggressive := some is_aggressive, volume := some volume,
           open_interest := some open_interest, iv := some iv,
           underlying_price := some underlying_price,
           event_time := some event_time,
           raw := some { call_put := raw.call_put } }

/-- `FlowClient._map_provider_event`: runs the normalization body and
the `FlowEvent(...)` dataclass call; any exception inside the `try`
block (in this typed embedding, only the dataclass `TypeError`) is
caught at lines 394-396 and turned into `None`. -/
def mapProviderEvent (now : DateTime) (raw : RawProviderEvent) :
    Option FlowEvent :=
  match mapProviderEventKwargs now raw with
  | none => none
  | some kwargs =>
    match flowEventInit kwargs with
    | .ok ev => some ev
    | .error _ => none

/-! ## Derived predicate flags and concrete sample inputs -/

/-- Indicator of a boolean flag as a score contribution unit. -/
def flagVal (b : Bool) : ℚ := if b then 1 else 0

/-- The notional-size predicate of `score_signal` (line 23). -/
def sizeFlag (e : FlowEvent) (m : ModeCfg) : Bool :=
  decide (e.notional ≥ minNotionalOf m)

/-- The volume-vs-open-interest predicate of `score_signal` (line 43),
with the divide-by-zero guard `max(open_interest, 1)`. -/
def volOiFlag (e : FlowEvent) : Bool :=
  decide (e.volume ≥ 2 * max e.open_interest 1)

/-- A concrete flow event used as a sample input: the end-to-end example
of the specification (call sweep, aggressive, notional 50000, volume
10000, open interest 2000). -/
def sampleEvent : FlowEvent :=
  { ticker := "SPY", call_put := "CALL", side := "BUY", action := "BUY",
    strike := 100, expiry := 3, option_price := 5, contracts := 100,
    notional := 50000, volume := 10000, open_interest := 2000,
    underlying_price := 99, trade_time := ⟨0⟩, event_time := ⟨0⟩,
    is_sweep := true, is_aggressive := true }

/-- Sample context: trend aligned and breaking level both set. -/
def sampleCtx : Ctx := { trend_aligned := some true, breaking_level := some true }

/-- Sample mode configuration with a minimum notional of 10000. -/
def sampleMode : ModeCfg := { min_notional := some 10000 }

/-- The sample event with zero open interest. -/
def sampleEventZeroOi : FlowEvent := { sampleEvent with open_interest := 0 }

/-- A configuration with a non-empty ticker-overrides list and an API
key, for exercising universe resolution. -/
def overrideCfg : UniCfg := { overrides := ["GME"], api_key := some "key" }

/-- The sample event with the sweep and aggressive flags cleared. -/
def calmEvent : FlowEvent :=
  { sampleEvent with is_sweep := false, is_aggressive := false }

/-- A global configuration resolving every (ticker, mode) pair to the
sample mode configuration. -/
def sampleGlobalCfg : GlobalCfg := { ticker_mode_cfg := fun _ _ => sampleMode }

/-- An empty per-chain accumulator (`chain_totals = {}` with
`.get(key, 0.0)` reads). -/
def emptyTotals : ChainTotals := fun _ => 0

/-- A well-formed Massive option-chain snapshot contract record: all the
fields the normalizer reads are present and truthy. -/
def validContract : Contract :=
  { details := some { ticker := some "O:SPY251219C00650000", contract_type := some "call", strike_price := some 650, expiration_date := some 20440 },
    last_trade := some { sip_timestamp := some 1760000000000000000, price := some 5, size := some 100 },
    day := some { volume := some 10000 },
    open_interest := some 2000,
    implied_volatility := some (2/5),
    underlying_asset := some { price := some 649 } }

/-- A family of minimal valid snapshot records with pairwise-distinct
option tickers (the ticker of record `i` is `i + 1` copies of `x`), all
sharing trade timestamp `1`. -/
def bigRecord (i : Nat) : Contract :=
  { details := some { ticker := some ⟨List.replicate (i+1) 'x'⟩ },
    last_trade := some { sip_timestamp := some 1 } }

/-- The identity key `bigRecord i` contributes under underlying
`"SPY"`. -/
def bigKey (i : Nat) : String := uniqueId "SPY" ⟨List.replicate (i+1) 'x'⟩ 1

/-- A raw legacy provider record without a `notional` field. -/
def rawSample : RawProviderEvent :=
  { ticker := some "SPY", price := some 5, contracts := some 100 }

/-!
## Theorems

Helper lemmas first, then one theorem per claim (with witnesses and
counterexamples as needed).
-/

/-- The raw pre-clamp score is the flag-weighted sum 4/2/2/2/2/1 (the
notional predicate is counted twice by the source: `SIZE` and
`SIZE_OK`). -/
theorem rawScore_eq_flags (e : FlowEvent) (c : Ctx) (m : ModeCfg) :
    rawScore e c m = 4 * flagVal (sizeFlag e m) + 2 * flagVal e.is_sweep
      + 2 * flagVal e.is_aggressive + 2 * flagVal (volOiFlag e)
      + 2 * flagVal (truthy c.trend_aligned)
      + flagVal (truthy c.breaking_level) := by
  simp only [rawScore, scoreAccum, sizeFlag, volOiFlag, flagVal,
    decide_eq_true_eq]
  by_cases h1 : e.notional ≥ minNotionalOf m <;>
    by_cases h2 : e.is_sweep <;>
      by_cases h3 : e.is_aggressive <;>
        by_cases h4 : e.volume ≥ 2 * max e.open_interest 1 <;>
          by_cases h5 : truthy c.trend_aligned <;>
            by_cases h6 : truthy c.breaking_level <;>
              simp only [h1, h2, h3, h4, h5, h6, if_true, if_false,
                if_pos, if_neg, not_false_iff] <;> norm_num

set_option maxHeartbeats 2000000 in
/-- Membership in `score_signal`'s tag list, characterized by the six
predicates. -/
theorem mem_score_tags_iff (e : FlowEvent) (c : Ctx) (m : ModeCfg) (s : String) :
    s ∈ (score_signal e c m).2.1 ↔
      (sizeFlag e m = true ∧ (s = "SIZE" ∨ s = "SIZE_OK")) ∨
      (e.is_sweep = true ∧ s = "SWEEP") ∨
      (e.is_aggressive = true ∧ s = "AGGRESSIVE") ∨
      (volOiFlag e = true ∧ s = "VOL>OI") ∨
      (truthy c.trend_aligned = true ∧ s = "TREND_CONFIRMED") ∨
      (truthy c.breaking_level = true ∧ s = "LEVEL_BREAK") := by
  simp only [score_signal, scoreAccum, sizeFlag, volOiFlag, decide_eq_true_eq]
  by_cases h1 : e.notional ≥ minNotionalOf m <;>
    by_cases h2 : e.is_sweep <;>
      by_cases h3 : e.is_aggressive <;>
        by_cases h4 : e.volume ≥ 2 * max e.open_interest 1 <;>
          by_cases h5 : truthy c.trend_aligned <;>
            by_cases h6 : truthy c.breaking_level <;>
              simp [h1, h2, h3, h4, h5, h6] <;> tauto

/-- A satisfied flag never contributes less. -/
theorem flagVal_mono {a b : Bool} (h : a = true → b = true) :
    flagVal a ≤ flagVal b := by
  cases a <;> cases b <;> simp_all [flagVal]

/-- Claim C4 counterexample: at this concrete input every one of the six
spec predicates (SIZE, SWEEP, AGGRESSIVE, VOL>OI, TREND_CONFIRMED,
LEVEL_BREAK) is satisfied, yet the raw pre-clamp sum of
`score_signal` is 13, not the 11 the claim states — the source scores
the notional predicate twice (lines 23-31: `SIZE` and `SIZE_OK`). -/
theorem score_signal_raw_sum_counterexample :
    sampleEvent.notional ≥ minNotionalOf sampleMode ∧
    sampleEvent.is_sweep = true ∧ sampleEvent.is_aggressive = true ∧
    sampleEvent.volume ≥ 2 * max sampleEvent.open_interest 1 ∧
    truthy sampleCtx.trend_aligned = true ∧
    truthy sampleCtx.breaking_level = true ∧
    rawScore sampleEvent sampleCtx sampleMode = 13 ∧
    rawScore sampleEvent sampleCtx sampleMode ≠ 11 := by
  refine ⟨by decide, by decide, by decide, by decide, by decide, by decide,
    ?_, ?_⟩ <;>
    rw [rawScore_eq_flags] <;>
      norm_num [sizeFlag, volOiFlag, flagVal, truthy, sampleEvent, sampleCtx,
        sampleMode, minNotionalOf]

/-- Claim C4 (amended): when the notional predicate holds,
`score_signal` adds 2 points with tag `SIZE` and rule
`notional>=min_notional` and a further 2 points with tag `SIZE_OK` and
rule `size_ok`; an event satisfying all six spec predicates therefore
accumulates a raw sum of 13 before clamping, and a final strength of
10. -/
theorem score_signal_size_double_count (e : FlowEvent) (c : Ctx) (m : ModeCfg)
    (h1 : e.notional ≥ minNotionalOf m) (h2 : e.is_sweep = true)
    (h3 : e.is_aggressive = true)
    (h4 : e.volume ≥ 2 * max e.open_interest 1)
    (h5 : truthy c.trend_aligned = true)
    (h6 : truthy c.breaking_level = true) :
    rawScore e c m = 13 ∧ (score_signal e c m).1 = 10 ∧
    (score_signal e c m).2.1 = ["SIZE", "SIZE_OK", "SWEEP", "AGGRESSIVE",
      "VOL>OI", "TREND_CONFIRMED", "LEVEL_BREAK"] ∧
    (score_signal e c m).2.2 = ["notional>=min_notional", "size_ok",
      "is_sweep", "is_aggressive", "volume>=2x_oi", "trend_aligned",
      "breaking_level"] := by
  have hraw : rawScore e c m = 13 := by
    rw [rawScore_eq_flags]
    simp [sizeFlag, volOiFlag, flagVal, h1, h2, h3, h4, h5, h6]
    norm_num
  refine ⟨hraw, ?_, ?_, ?_⟩
  · have hdef : (score_signal e c m).1 = min (rawScore e c m) 10 := rfl
    rw [hdef, hraw]; norm_num
  · simp [score_signal, scoreAccum, h1, h2, h3, h4, h5, h6]
  · simp [score_signal, scoreAccum, h1, h2, h3, h4, h5, h6]

/-- Claim C4 witness: the amended statement evaluated at the concrete
sample input. -/
theorem score_signal_size_double_count_witness :
    rawScore sampleEvent sampleCtx sampleMode = 13 ∧
    (score_signal sampleEvent sampleCtx sampleMode).1 = 10 ∧
    (score_signal sampleEvent sampleCtx sampleMode).2.1 = ["SIZE", "SIZE_OK",
      "SWEEP", "AGGRESSIVE", "VOL>OI", "TREND_CONFIRMED", "LEVEL_BREAK"] ∧
    (score_signal sampleEvent sampleCtx sampleMode).2.2 =
      ["notional>=min_notional", "size_ok", "is_sweep", "is_aggressive",
        "volume>=2x_oi", "trend_aligned", "breaking_level"] :=
  score_signal_size_double_count sampleEvent sampleCtx sampleMode
    (by decide) (by decide) (by decide) (by decide) (by decide) (by decide)

/-- Claim C8: the strength returned by `score_signal` equals
`min(raw sum, 10)`, never exceeds 10, and is monotonically
non-decreasing in the satisfied predicates: if every predicate satisfied
at the first input is also satisfied at the second, the first strength
is at most the second. -/
theorem score_signal_clamp_monotone (e₁ e₂ : FlowEvent) (c₁ c₂ : Ctx)
    (m₁ m₂ : ModeCfg)
    (hs : sizeFlag e₁ m₁ = true → sizeFlag e₂ m₂ = true)
    (hw : e₁.is_sweep = true → e₂.is_sweep = true)
    (ha : e₁.is_aggressive = true → e₂.is_aggressive = true)
    (hv : volOiFlag e₁ = true → volOiFlag e₂ = true)
    (ht : truthy c₁.trend_aligned = true → truthy c₂.trend_aligned = true)
    (hb : truthy c₁.breaking_level = true → truthy c₂.breaking_level = true) :
    (score_signal e₁ c₁ m₁).1 = min (rawScore e₁ c₁ m₁) 10 ∧
    (score_signal e₁ c₁ m₁).1 ≤ 10 ∧
    (score_signal e₁ c₁ m₁).1 ≤ (score_signal e₂ c₂ m₂).1 := by
  have hdef : ∀ (e : FlowEvent) (c : Ctx) (m : ModeCfg),
      (score_signal e c m).1 = min (rawScore e c m) 10 := fun _ _ _ => rfl
  refine ⟨hdef e₁ c₁ m₁, ?_, ?_⟩
  · rw [hdef]; exact min_le_right _ _
  · rw [hdef, hdef]
    refine min_le_min ?_ le_rfl
    rw [rawScore_eq_flags, rawScore_eq_flags]
    have step : ∀ (w : ℚ), 0 ≤ w → ∀ {a b : Bool}, (a = true → b = true) →
        w * flagVal a ≤ w * flagVal b := fun w hw' _ _ h =>
      mul_le_mul_of_nonneg_left (flagVal_mono h) hw'
    exact add_le_add (add_le_add (add_le_add (add_le_add (add_le_add
      (step 4 (by norm_num) hs) (step 2 (by norm_num) hw))
      (step 2 (by norm_num) ha)) (step 2 (by norm_num) hv))
      (step 2 (by norm_num) ht)) (flagVal_mono hb)

/-- Claim C8 witness: the clamp/monotonicity statement at a concrete
input (second input equal to the first). -/
theorem score_signal_clamp_monotone_witness :
    (score_signal sampleEvent sampleCtx sampleMode).1 =
      min (rawScore sampleEvent sampleCtx sampleMode) 10 ∧
    (score_signal sampleEvent sampleCtx sampleMode).1 ≤ 10 ∧
    (score_signal sampleEvent sampleCtx sampleMode).1 ≤
      (score_signal sampleEvent sampleCtx sampleMode).1 :=
  score_signal_clamp_monotone sampleEvent sampleEvent sampleCtx sampleCtx
    sampleMode sampleMode (fun h => h) (fun h => h) (fun h => h)
    (fun h => h) (fun h => h) (fun h => h)

/-- Claim C9: when `open_interest = 0`, the VOL>OI predicate of
`score_signal` compares the volume against `2 * max(0, 1) = 2` (the
denominator floor is 1, no division by zero exists in the rubric), so
the predicate — and the `VOL>OI` tag — fires exactly when
`volume ≥ 2`. -/
theorem score_vol_oi_zero_guard (e : FlowEvent) (c : Ctx) (m : ModeCfg)
    (h : e.open_interest = 0) :
    (e.volume ≥ 2 * max e.open_interest 1 ↔ 2 ≤ e.volume) ∧
    ("VOL>OI" ∈ (score_signal e c m).2.1 ↔ 2 ≤ e.volume) := by
  have hmax : max e.open_interest 1 = 1 := by rw [h]; norm_num
  have hcond : (e.volume ≥ 2 * max e.open_interest 1) ↔ 2 ≤ e.volume := by
    rw [hmax]; norm_num
  refine ⟨hcond, ?_⟩
  rw [mem_score_tags_iff]
  simp [volOiFlag, hcond]

/-- Claim C9 witness: the zero-open-interest guard at a concrete
event. -/
theorem score_vol_oi_zero_guard_witness :
    (sampleEventZeroOi.volume ≥ 2 * max sampleEventZeroOi.open_interest 1 ↔
      2 ≤ sampleEventZeroOi.volume) ∧
    ("VOL>OI" ∈ (score_signal sampleEventZeroOi sampleCtx sampleMode).2.1 ↔
      2 ≤ sampleEventZeroOi.volume) :=
  score_vol_oi_zero_guard sampleEventZeroOi sampleCtx sampleMode (by decide)

/-- Claim C3 counterexample: with a non-empty overrides list configured,
`resolve_universe` still returns the dynamic top-volume result — not the
overrides — and the dynamic fetch is invoked (`universe.py` has no
overrides tier at all; its precedence starts at the dynamic fetch). -/
theorem resolve_universe_overrides_counterexample :
    overrideCfg.overrides = ["GME"] ∧ overrideCfg.overrides ≠ [] ∧
    (resolve_universe overrideCfg (some ["AAPL"]) 500).1 = ["AAPL"] ∧
    (resolve_universe overrideCfg (some ["AAPL"]) 500).1 ≠ ["GME"] ∧
    (resolve_universe overrideCfg (some ["AAPL"]) 500).2 = true := by
  decide

/-- Claim C3 (amended): `resolve_universe` never consults ticker
overrides — its result and its decision to invoke the dynamic fetch are
unchanged under any overrides value — and the dynamic top-volume fetch
is attempted exactly when an API key is configured. -/
theorem resolve_universe_ignores_overrides (cfg : UniCfg) (o : List String)
    (fetchTop : Option (List String)) (n : Int) :
    resolve_universe { cfg with overrides := o } fetchTop n =
      resolve_universe cfg fetchTop n ∧
    (resolve_universe cfg fetchTop n).2 = strTruthy cfg.api_key := by
  constructor
  · cases cfg; rfl
  · simp only [resolve_universe]
    split_ifs <;> rfl

/-- Claim C7: `DayTrendStrategy.evaluate` returns no signal whenever the
resolved breaking-level condition is false: the context's
`breaking_level` when supplied, otherwise inferred as
`is_aggressive or is_sweep`. -/
theorem day_trend_breaking_level_gate (e : FlowEvent) (c : Ctx)
    (regime : Regime) (g : GlobalCfg)
    (h : dayTrendBreakingLevel e c = false) :
    DayTrendStrategy.evaluate e c regime g = none := by
  unfold dayTrendBreakingLevel at h
  unfold DayTrendStrategy.evaluate
  simp only [h, Bool.not_false, if_true]
  cases hc : c.rvol <;> simp [hc]

/-- Claim C7 witness: an event that is neither aggressive nor a sweep,
under a context that does not supply `breaking_level`, yields no
day-trend signal. -/
theorem day_trend_breaking_level_gate_witness :
    DayTrendStrategy.evaluate calmEvent {} {} sampleGlobalCfg = none :=
  day_trend_breaking_level_gate calmEvent {} {} sampleGlobalCfg (by decide)

/-- The scoring rubric never emits the swing strategy's
`PERSISTENT_BUYER` tag. -/
theorem persistent_notin_score_tags (e : FlowEvent) (c : Ctx) (m : ModeCfg) :
    "PERSISTENT_BUYER" ∉ (score_signal e c m).2.1 := by
  rw [mem_score_tags_iff]; simp

/-- Claim C6: for an event passing the swing DTE and notional gates, the
accumulator entry for the event's exact (ticker, strike, expiry,
call/put) chain grows by exactly the event's notional, every other
chain's entry is untouched, and — whenever a signal is returned — its
`PERSISTENT_BUYER` tag is present exactly when the updated cumulative
notional of that chain (current event included) has reached 3 times the
mode's minimum-notional (`min_premium`) threshold. -/
theorem swing_persistent_buyer_exact (st : ChainTotals) (e : FlowEvent)
    (c : Ctx) (regime : Regime) (g : GlobalCfg)
    (hdte : ¬(e.expiry - e.event_time.dateOf <
        (get_ticker_config g e.ticker "swing").min_dte.getD 0 ∨
      e.expiry - e.event_time.dateOf >
        (get_ticker_config g e.ticker "swing").max_dte.getD 1000000))
    (hnot : ¬(e.notional <
        (get_ticker_config g e.ticker "swing").min_premium.getD 0)) :
    (SwingAccumulationStrategy.evaluate st e c regime g).2 (swingChainKey e) =
      st (swingChainKey e) + e.notional ∧
    (∀ k, k ≠ swingChainKey e →
      (SwingAccumulationStrategy.evaluate st e c regime g).2 k = st k) ∧
    (∀ sig, (SwingAccumulationStrategy.evaluate st e c regime g).1 = some sig →
      ("PERSISTENT_BUYER" ∈ sig.tags ↔
        st (swingChainKey e) + e.notional ≥
          (get_ticker_config g e.ticker "swing").min_premium.getD 0 * 3)) := by
  simp only [SwingAccumulationStrategy.evaluate]
  rw [if_neg hdte, if_neg hnot]
  refine ⟨by split_ifs <;> simp, fun k hk => by split_ifs <;> simp [hk], ?_⟩
  intro sig hsig
  by_cases hstr : (score_signal e
      { c with trend_aligned := some (if pyUpper (strOr e.call_put
          (pyOrStr e.raw.call_put "CALL")) = "CALL" then truthy c.trend_daily_up
        else !truthy c.trend_daily_up) }
      (get_ticker_config g e.ticker "swing")).1 <
      (get_ticker_config g e.ticker "swing").min_strength.getD 0
  · simp [hstr] at hsig
  · simp only [hstr, if_false, if_neg, Option.some.injEq] at hsig
    subst hsig
    by_cases hpb : st (swingChainKey e) + e.notional ≥
        (get_ticker_config g e.ticker "swing").min_premium.getD 0 * 3
    · simp only [hpb, iff_true, ge_iff_le]
      simp [hpb]
      split_ifs <;> simp
    · simp [hpb]
      split_ifs <;> simp [persistent_notin_score_tags]

/-- Claim C6 witness: the accumulator/flag statement evaluated for the
sample event against an empty accumulator. -/
theorem swing_persistent_buyer_exact_witness :
    (SwingAccumulationStrategy.evaluate emptyTotals sampleEvent sampleCtx {}
        sampleGlobalCfg).2 (swingChainKey sampleEvent) =
      emptyTotals (swingChainKey sampleEvent) + sampleEvent.notional ∧
    (∀ k, k ≠ swingChainKey sampleEvent →
      (SwingAccumulationStrategy.evaluate emptyTotals sampleEvent sampleCtx {}
        sampleGlobalCfg).2 k = emptyTotals k) ∧
    (∀ sig, (SwingAccumulationStrategy.evaluate emptyTotals sampleEvent
        sampleCtx {} sampleGlobalCfg).1 = some sig →
      ("PERSISTENT_BUYER" ∈ sig.tags ↔
        emptyTotals (swingChainKey sampleEvent) + sampleEvent.notional ≥
          (get_ticker_config sampleGlobalCfg sampleEvent.ticker
            "swing").min_premium.getD 0 * 3)) :=
  swing_persistent_buyer_exact emptyTotals sampleEvent sampleCtx {}
    sampleGlobalCfg (by decide) (by decide)

/-- The per-contract poll step never yields an event: the `FlowEvent`
construction lacks its required `call_put` and `trade_time` arguments,
so `flowEventInit` fails on every record that gets that far, and every
earlier branch skips the record. -/
theorem processContract_fst (u : String) (today : Int) (c : Contract)
    (seen : List String) : (processContract u today c seen).1 = none := by
  unfold processContract
  cases hl : c.last_trade with
  | none => simp
  | some lt =>
    simp only []
    cases hts : pyOrOptI lt.sip_timestamp lt.t with
    | none => simp
    | some ts =>
      simp only []
      split_ifs <;> simp [flowEventInit]

/-- The seen-set after one contract: unchanged when the record is
skipped before its key is formed or the key is already present;
otherwise the key is added. -/
theorem processContract_seen (u : String) (today : Int) (c : Contract)
    (seen : List String) :
    (processContract u today c seen).2 =
      match recordKey u c with
      | none => seen
      | some k => if k ∈ seen then seen else k :: seen := by
  unfold processContract recordKey
  cases hl : c.last_trade with
  | none => simp
  | some lt =>
    simp only []
    cases hts : pyOrOptI lt.sip_timestamp lt.t with
    | none => simp
    | some ts =>
      simp only []
      split_ifs <;> simp_all [flowEventInit]

/-- The poll loop yields no events over any `results` array. -/
theorem processResults_fst (u : String) (today : Int) (cs : List Contract)
    (seen : List String) : (processResults u today cs seen).1 = [] := by
  induction cs generalizing seen with
  | nil => rfl
  | cons c cs ih =>
    simp only [processResults, processContract_fst]
    exact ih _

/-- One poll step never removes a seen-set entry. -/
theorem processContract_seen_mono (u : String) (today : Int) (c : Contract)
    (seen : List String) : seen ⊆ (processContract u today c seen).2 := by
  rw [processContract_seen]
  cases recordKey u c with
  | none => exact fun x hx => hx
  | some k =>
    dsimp only
    split_ifs with h
    · exact fun x hx => hx
    · exact List.subset_cons_self _ _

/-- Processing a whole `results` array never removes a seen-set
entry. -/
theorem processResults_seen_mono (u : String) (today : Int)
    (cs : List Contract) (seen : List String) :
    seen ⊆ (processResults u today cs seen).2 := by
  induction cs generalizing seen with
  | nil => exact fun x hx => hx
  | cons c cs ih =>
    simp only [processResults]
    exact (processContract_seen_mono u today c seen).trans (ih _)

/-- Claim C2: for every option-chain snapshot `results` array, the live
polling normalizer emits zero FlowEvents — the `FlowEvent(...)` call in
`_poll_massive_option_chain` omits the dataclass's required `call_put`
and `trade_time` arguments, so construction fails and the per-record
handler skips the record — while every record that reaches the dedup
step leaves its identity key in the seen-set (the key is added before
construction is attempted). -/
theorem poll_normalizer_emits_nothing (u : String) (today : Int)
    (results : List Contract) (seen : List String) :
    (processResults u today results seen).1 = [] ∧
    (∀ c ∈ results, ∀ k, recordKey u c = some k →
      k ∈ (processResults u today results seen).2) := by
  refine ⟨processResults_fst u today results seen, ?_⟩
  induction results generalizing seen with
  | nil => intro c hc; cases hc
  | cons c cs ih =>
    intro c' hc' k hk
    simp only [processResults]
    rcases List.mem_cons.mp hc' with rfl | h'
    · have hkin : k ∈ (processContract u today c' seen).2 := by
        rw [processContract_seen, hk]
        dsimp only
        split_ifs with h
        · exact h
        · exact List.mem_cons_self _ _
      exact processResults_seen_mono u today cs _ hkin
    · exact ih _ c' h' k hk

/-- Claim C2 witness: a concrete well-formed snapshot record produces no
event and its identity key lands in the seen-set. -/
theorem poll_normalizer_emits_nothing_witness :
    (processResults "SPY" 0 [validContract] []).1 = [] ∧
    "SPY:O:SPY251219C00650000:1760000000000000000" ∈
      (processResults "SPY" 0 [validContract] []).2 :=
  ⟨(poll_normalizer_emits_nothing "SPY" 0 [validContract] []).1,
   (poll_normalizer_emits_nothing "SPY" 0 [validContract] []).2 validContract
     (List.mem_cons_self _ _) _ (by decide)⟩

/-- Claim C1 (evaluation at the failing input): feeding the identical
well-formed contract record to the poll normalizer twice — in a later
cycle with the threaded seen-set, or within the same cycle — yields
zero emitted FlowEvents in total, not the one event the claim (and the
specification's dedup property) requires; the record's identity key is
nevertheless recorded in the seen-set. -/
theorem poll_duplicate_record_emits_no_event :
    (processResults "SPY" 0 [validContract] []).1 = [] ∧
    (processResults "SPY" 0 [validContract]
        (processResults "SPY" 0 [validContract] []).2).1 = [] ∧
    (processResults "SPY" 0 [validContract, validContract] []).1 = [] ∧
    (processResults "SPY" 0 [validContract] []).2 =
      ["SPY:O:SPY251219C00650000:1760000000000000000"] := by
  decide

/-- `bigRecord i` passes the pre-key gates and contributes
`bigKey i`. -/
theorem recordKey_bigRecord (i : Nat) :
    recordKey "SPY" (bigRecord i) = some (bigKey i) := by
  have hx : (⟨List.replicate (i+1) 'x'⟩ : String) ≠ "" := by
    simp [String.ext_iff, List.replicate_succ]
  simp [recordKey, bigRecord, bigKey, pyOrStr, pyOrOptI, uniqueId, hx]

/-- The length of `bigKey i` determines `i`. -/
theorem bigKey_length (i : Nat) : (bigKey i).length = i + 7 := by
  have hmid : (⟨List.replicate (i+1) 'x'⟩ : String).length = i + 1 := by
    rw [String.length_mk, List.length_replicate]
  have h1 : "SPY".length = 3 := rfl
  have h2 : ":".length = 1 := rfl
  have h3 : (toString (1 : Int)).length = 1 := rfl
  unfold bigKey uniqueId
  rw [String.length_append, String.length_append, String.length_append,
    String.length_append, hmid, h1, h2, h3]
  omega

/-- Distinct indices give distinct identity keys. -/
theorem bigKey_injective : Function.Injective bigKey := by
  intro a b h
  have hlen := congrArg String.length h
  rw [bigKey_length, bigKey_length] at hlen
  omega

/-- The keys of the `bigRecord` family. -/
theorem keysOf_bigRecords (n : Nat) :
    keysOf "SPY" ((List.range n).map bigRecord) = (List.range n).map bigKey := by
  unfold keysOf
  rw [List.filterMap_map]
  have hfun : (recordKey "SPY" ∘ bigRecord) = some ∘ bigKey := by
    funext i
    exact recordKey_bigRecord i
  rw [hfun, List.filterMap_eq_map]

/-- Processing records whose identity keys are pairwise distinct and all
fresh adds every key: the final seen-set is the reversed key list on top
of the initial seen-set. -/
theorem processResults_seen_fresh (u : String) (today : Int) :
    ∀ (cs : List Contract) (seen : List String),
    (keysOf u cs).Nodup → (∀ k ∈ keysOf u cs, k ∉ seen) →
    (∀ c ∈ cs, (recordKey u c).isSome) →
    (processResults u today cs seen).2 = (keysOf u cs).reverse ++ seen := by
  intro cs
  induction cs with
  | nil => intro seen _ _ _; simp [processResults, keysOf]
  | cons c cs ih =>
    intro seen hnd hdisj hsome
    obtain ⟨k, hk⟩ := Option.isSome_iff_exists.mp
      (hsome c (List.mem_cons_self _ _))
    have hkeys : keysOf u (c :: cs) = k :: keysOf u cs := by
      simp [keysOf, hk]
    rw [hkeys] at hnd hdisj
    have hknotin : k ∉ seen := hdisj k (List.mem_cons_self _ _)
    have hseen : (processContract u today c seen).2 = k :: seen := by
      rw [processContract_seen, hk]
      dsimp only
      rw [if_neg hknotin]
    simp only [processResults, hseen]
    rw [ih (k :: seen) (List.Nodup.of_cons hnd) ?_ ?_]
    · rw [hkeys]
      simp
    · intro k' hk' hmem
      rcases List.mem_cons.mp hmem with rfl | hmem'
      · exact (List.nodup_cons.mp hnd).1 hk'
      · exact hdisj k' (List.mem_cons_of_mem _ hk') hmem'
    · intro c' hc'
      exact hsome c' (List.mem_cons_of_mem _ hc')

/-- Claim C5 counterexample: after 2001 distinct fresh records the
seen-set holds 2001 entries — beyond the claimed ~2000 capacity — and
the oldest entry is still present: nothing was evicted. -/
theorem seen_set_unbounded_counterexample :
    (processResults "SPY" 0 ((List.range 2001).map bigRecord) []).2.length
      = 2001 ∧
    2000 <
      (processResults "SPY" 0 ((List.range 2001).map bigRecord) []).2.length ∧
    bigKey 0 ∈ (processResults "SPY" 0 ((List.range 2001).map bigRecord) []).2 := by
  have hfresh := processResults_seen_fresh "SPY" 0
    ((List.range 2001).map bigRecord) []
    (by rw [keysOf_bigRecords]
        exact (List.nodup_range 2001).map bigKey_injective)
    (by intro k _ hmem; cases hmem)
    (by intro c hc
        rcases List.mem_map.mp hc with ⟨i, _, rfl⟩
        rw [recordKey_bigRecord]
        rfl)
  rw [hfresh, keysOf_bigRecords]
  refine ⟨by simp, by simp, ?_⟩
  simp only [List.append_nil, List.mem_reverse]
  exact List.mem_map.mpr ⟨0, by simp, rfl⟩

/-- Claim C5 (amended): the flow-ingestion seen-set is unbounded — the
polling code never evicts (the initial seen-set survives every poll
intact), and each batch of fresh, pairwise-distinct identity keys grows
the set by exactly its size, with no capacity check anywhere. -/
theorem seen_set_no_eviction (u : String) (today : Int) (cs : List Contract)
    (seen : List String) :
    seen ⊆ (processResults u today cs seen).2 ∧
    ((keysOf u cs).Nodup → (∀ k ∈ keysOf u cs, k ∉ seen) →
      (∀ c ∈ cs, (recordKey u c).isSome) →
      (processResults u today cs seen).2 = (keysOf u cs).reverse ++ seen) :=
  ⟨processResults_seen_mono u today cs seen,
   fun h1 h2 h3 => processResults_seen_fresh u today cs seen h1 h2 h3⟩

/-- Claim C5 witness: the no-eviction statement evaluated on one
concrete fresh record. -/
theorem seen_set_no_eviction_witness :
    ([] : List String) ⊆ (processResults "SPY" 0 [bigRecord 0] []).2 ∧
    (processResults "SPY" 0 [bigRecord 0] []).2 =
      (keysOf "SPY" [bigRecord 0]).reverse ++ [] :=
  ⟨(seen_set_no_eviction "SPY" 0 [bigRecord 0] []).1,
   (seen_set_no_eviction "SPY" 0 [bigRecord 0] []).2
     (by decide) (by decide) (by decide)⟩

/-- Claim C10: when a raw provider record supplies no `notional`, the
notional value the normalizer `_map_provider_event` computes for the
`FlowEvent(...)` keyword arguments is exactly
`contracts × option_price × 100`, with `contracts` and `option_price`
extracted by the source's alias chains. -/
theorem normalized_notional_recompute (now : DateTime)
    (raw : RawProviderEvent) (hnot : raw.notional = none)
    (htk : pyUpper (pyOrStr raw.ticker (pyOrStr raw.underlying
      (pyOrStr raw.symbol ""))) ≠ "") :
    ((mapProviderEventKwargs now raw).getD {}).notional =
      some (((pyOrI raw.contracts (pyOrI raw.size (pyOrI raw.qty
          (pyOrI raw.quantity 0)))) : ℚ) *
        pyOrQ raw.price (pyOrQ raw.option_price (pyOrQ raw.premium 0)) *
        100) := by
  simp only [mapProviderEventKwargs]
  rw [if_neg htk]
  simp [pyOrQ, hnot]

/-- Claim C10 witness: the recomputed notional for a concrete raw record
without a `notional` field. -/
theorem normalized_notional_recompute_witness :
    ((mapProviderEventKwargs ⟨0⟩ rawSample).getD {}).notional =
      some (((pyOrI rawSample.contracts (pyOrI rawSample.size
          (pyOrI rawSample.qty (pyOrI rawSample.quantity 0)))) : ℚ) *
        pyOrQ rawSample.price (pyOrQ rawSample.option_price
          (pyOrQ rawSample.premium 0)) * 100) :=
  normalized_notional_recompute ⟨0⟩ rawSample (by decide) (by decide)

end FlowBot
